import Mathlib

/-!
Verification of the TASCAM CD-400U RS-232C controller
(barther/cdrs232, src/tascam_controller.py).

The development shallowly embeds the protocol-level core of
`TascamController`: the Device Status record, the response decoder
(`_handle_response`), the frame codec (`_build_command` / `_read_response`),
the command-issuing boundary methods, the constructor validation and one
iteration of the poll/health loop (`_poll_status`).  Payload and command
strings are `List Char`; raw serial bytes are `List Nat`.  Exceptions that
Python would raise while decoding (ValueError from `int(...)`) are modelled
by `Except Unit`.
-/

namespace Tascam

/-- Structured error info stored under the error_status key (F8 handler). -/
structure ErrorStatus where
  raw : Nat
  errors : List String
  hasError : Bool
deriving DecidableEq, Repr

/-- Structured caution info stored under the caution_status key (F9 handler). -/
structure CautionStatus where
  raw : Nat
  cautions : List String
  hasCaution : Bool
deriving DecidableEq, Repr

/-- The Device Status record: the keys of the current_status dictionary. -/
structure DeviceStatus where
  mechaStatus : String
  trackNumber : Nat
  currentTrack : Nat
  totalTracks : Nat
  timeElapsed : String
  timeRemaining : String
  totalTime : String
  mediaPresent : Bool
  mediaType : String
  playMode : String
  repeatMode : Bool
  resumeMode : Bool
  incrementalPlay : Bool
  remoteLocalMode : String
  device : String
  deviceName : String
  isTuner : Bool
  errorStatus : Option ErrorStatus
  cautionStatus : Option CautionStatus
deriving DecidableEq, Repr

/-- The default Device Status: the dictionary literal that both `__init__`
and `_reset_status` assign (the two literals in the source are identical). -/
def defaultStatus : DeviceStatus where
  mechaStatus := "unknown"
  trackNumber := 0
  currentTrack := 0
  totalTracks := 0
  timeElapsed := "00:00"
  timeRemaining := "00:00"
  totalTime := "00:00"
  mediaPresent := false
  mediaType := "unknown"
  playMode := "continuous"
  repeatMode := false
  resumeMode := false
  incrementalPlay := false
  remoteLocalMode := "unknown"
  device := "CD"
  deviceName := "CD"
  isTuner := false
  errorStatus := none
  cautionStatus := none

/-! Command and return code constants of the class, as character lists. -/

def CMD_STOP : List Char := ['1', '0']

def CMD_PLAY : List Char := ['1', '2']

def CMD_READY : List Char := ['1', '4']

def CMD_SEARCH : List Char := ['1', '6']

def CMD_EJECT : List Char := ['1', '8']

def CMD_TRACK_SKIP : List Char := ['1', 'A']

def CMD_DIRECT_TRACK_SEARCH : List Char := ['2', '3']

def CMD_RESUME_PLAY_SELECT : List Char := ['3', '4']

def CMD_RESUME_PLAY_SENSE : List Char := ['3', '5']

def CMD_REPEAT_SELECT : List Char := ['3', '7']

def CMD_REPEAT_SENSE : List Char := ['3', '8']

def CMD_INCR_PLAY_SELECT : List Char := ['3', 'A']

def CMD_INCR_PLAY_SENSE : List Char := ['3', 'B']

def CMD_CLEAR : List Char := ['4', 'A']

def CMD_REMOTE_LOCAL_SELECT : List Char := ['4', 'C']

def CMD_REMOTE_LOCAL_SENSE : List Char := ['4', 'D']

def CMD_PLAY_MODE_SELECT : List Char := ['4', 'E']

def CMD_PLAY_MODE_SENSE : List Char := ['4', 'F']

def CMD_MECHA_STATUS_SENSE : List Char := ['5', '0']

def CMD_TRACK_NO_SENSE : List Char := ['5', '5']

def CMD_MEDIA_STATUS_SENSE : List Char := ['5', '6']

def CMD_CURRENT_TRACK_INFO_SENSE : List Char := ['5', '7']

def CMD_CURRENT_TRACK_TIME_SENSE : List Char := ['5', '8']

def CMD_TOTAL_TRACK_TIME_SENSE : List Char := ['5', 'D']

def CMD_ERROR_SENSE : List Char := ['7', '8']

def CMD_CAUTION_SENSE : List Char := ['7', '9']

def CMD_DEVICE_SELECT : List Char := ['7', 'F', '0', '1']

def CMD_ENTER : List Char := ['7', 'F', '7', '0', '4', '9']

def CMD_BACK : List Char := ['7', 'F', '7', '0', '4', 'A']

def RET_RESUME_PLAY : List Char := ['B', '5']

def RET_REPEAT : List Char := ['B', '8']

def RET_INCR_PLAY : List Char := ['B', 'B']

def RET_REMOTE_LOCAL : List Char := ['C', 'D']

def RET_PLAY_MODE : List Char := ['C', 'F']

def RET_MECHA_STATUS : List Char := ['D', '0']

def RET_TRACK_NO : List Char := ['D', '5']

def RET_MEDIA_STATUS : List Char := ['D', '6']

def RET_CURRENT_TRACK_INFO : List Char := ['D', '7']

def RET_CURRENT_TRACK_TIME : List Char := ['D', '8']

def RET_TOTAL_TRACK_TIME : List Char := ['D', 'D']

def RET_ERROR_SENSE_REQUEST : List Char := ['F', '0']

def RET_CAUTION_SENSE_REQUEST : List Char := ['F', '1']

def RET_ILLEGAL_STATUS : List Char := ['F', '2']

def RET_CHANGE_STATUS : List Char := ['F', '6']

def RET_ERROR_SENSE : List Char := ['F', '8']

def RET_CAUTION_SENSE : List Char := ['F', '9']

def RET_VENDOR : List Char := ['F', 'F']

/-- Fixed single-character machine id prepended to every outgoing frame. -/
def MACHINE_ID : Char := '0'

/-- Python int(c) on a one-character string: the decimal digit value, a
ValueError (modelled as .error) on anything that is not a digit. -/
def digitVal (c : Char) : Except Unit Nat :=
  if '0' ≤ c ∧ c ≤ '9' then .ok (c.toNat - 48) else .error ()

/-- One hexadecimal digit, upper or lower case. -/
def hexDigitVal (c : Char) : Option Nat :=
  if '0' ≤ c ∧ c ≤ '9' then some (c.toNat - 48)
  else if 'a' ≤ c ∧ c ≤ 'f' then some (c.toNat - 87)
  else if 'A' ≤ c ∧ c ≤ 'F' then some (c.toNat - 55)
  else none

/-- Python int(s, 16) on the two-character slice data[:2]. -/
def hexPair (hi lo : Char) : Except Unit Nat :=
  match hexDigitVal hi, hexDigitVal lo with
  | some h, some l => .ok (16 * h + l)
  | _, _ => .error ()

/-- The Python format f"{n:02d}" for a non-negative n: left pad with a zero
to width two; numbers of three or more digits print in full. -/
def fmt02 (n : Nat) : String :=
  if n < 10 then "0" ++ toString n else toString n

/-- status_map in the D0 (mecha status) handler, with the dictionary get
default of unknown. -/
def mechaStatusMap (k : List Char) : String :=
  if k = ['0', '0'] then "no_media"
  else if k = ['0', '1'] then "ejecting"
  else if k = ['1', '0'] then "stop"
  else if k = ['1', '1'] then "play"
  else if k = ['1', '2'] then "ready"
  else if k = ['2', '8'] then "search_forward"
  else if k = ['2', '9'] then "search_backward"
  else if k = ['F', 'F'] then "other"
  else "unknown"

/-- media_type_map in the D6 handler, default Unknown. -/
def mediaTypeMap (k : List Char) : String :=
  if k = ['0', '0'] then "CD-DA/Audio"
  else if k = ['1', '0'] then "CD-ROM/Data"
  else "Unknown"

/-- mode_map in the CF handler, default continuous. -/
def playModeMap (k : List Char) : String :=
  if k = ['0', '0'] then "continuous"
  else if k = ['0', '1'] then "single"
  else if k = ['0', '6'] then "random"
  else "continuous"

/-- mode_map in the CD handler, default unknown. -/
def remoteLocalMap (k : List Char) : String :=
  if k = ['0', '0'] then "remote_only"
  else if k = ['0', '1'] then "remote_and_local"
  else "unknown"

/-- device_map in the FF category 01 handler: device code and display name. -/
def deviceMap (k : List Char) : Option (String × String) :=
  if k = ['0', '0'] then some ("sd", "SD Card")
  else if k = ['1', '0'] then some ("usb", "USB")
  else if k = ['1', '1'] then some ("cd", "CD")
  else if k = ['2', '0'] then some ("bluetooth", "Bluetooth")
  else if k = ['3', '0'] then some ("fm", "FM Radio")
  else if k = ['3', '1'] then some ("am", "AM Radio")
  else if k = ['4', '0'] then some ("aux", "AUX Input")
  else none

/-- The error names appended for each set bit of the F8 error byte, in the
order the source tests the bits. -/
def errorNamesOf (b : Nat) : List String :=
  (if b.testBit 0 then ["focus_error"] else [])
  ++ (if b.testBit 1 then ["tracking_error"] else [])
  ++ (if b.testBit 2 then ["spindle_error"] else [])
  ++ (if b.testBit 3 then ["sled_error"] else [])
  ++ (if b.testBit 4 then ["tray_error"] else [])
  ++ (if b.testBit 5 then ["no_disc"] else [])
  ++ (if b.testBit 6 then ["cannot_play"] else [])
  ++ (if b.testBit 7 then ["other_error"] else [])

/-- The caution names appended for each set bit of the F9 caution byte. -/
def cautionNamesOf (b : Nat) : List String :=
  (if b.testBit 0 then ["unsupported_disc"] else [])
  ++ (if b.testBit 1 then ["dirty_disc"] else [])
  ++ (if b.testBit 2 then ["no_audio"] else [])
  ++ (if b.testBit 3 then ["temperature_high"] else [])
  ++ (if b.testBit 4 then ["copyright_protected"] else [])

/-- What one call of `_handle_response` does: the new Device Status, whether
the updated flag was set (gating `_notify_callbacks`), and the commands it
itself enqueued via send_command (the F6/F0/F1 reactions). -/
structure HandleResult where
  status : DeviceStatus
  updated : Bool
  sent : List (List Char × List Char)
deriving DecidableEq, Repr

/-- `_handle_response(command, data)`: the decode step.  Length guards are
written exactly as in the source (note the mecha status branch has none);
`data[i]` under an in-range guard is modelled by getD. -/
def handleResponse (command : List Char) (data : List Char) (st : DeviceStatus) :
    Except Unit HandleResult :=
  if command = RET_MECHA_STATUS then
    .ok ⟨{ st with mechaStatus := mechaStatusMap (data.take 2) }, true, []⟩
  else if command = RET_TRACK_NO then
    if 4 ≤ data.length then do
      let tens ← digitVal (data.getD 0 ' ')
      let ones ← digitVal (data.getD 1 ' ')
      let thousands ← digitVal (data.getD 2 ' ')
      let hundreds ← digitVal (data.getD 3 ' ')
      .ok ⟨{ st with trackNumber := thousands * 1000 + hundreds * 100 + tens * 10 + ones },
        true, []⟩
    else .ok ⟨st, false, []⟩
  else if command = RET_CURRENT_TRACK_TIME then
    if 10 ≤ data.length then do
      let minTens ← digitVal (data.getD 2 ' ')
      let minOnes ← digitVal (data.getD 3 ' ')
      let minThousands ← digitVal (data.getD 4 ' ')
      let minHundreds ← digitVal (data.getD 5 ' ')
      let secTens ← digitVal (data.getD 6 ' ')
      let secOnes ← digitVal (data.getD 7 ' ')
      let minutes := minThousands * 1000 + minHundreds * 100 + minTens * 10 + minOnes
      let seconds := secTens * 10 + secOnes
      .ok ⟨{ st with timeElapsed := fmt02 minutes ++ ":" ++ fmt02 seconds }, true, []⟩
    else .ok ⟨st, false, []⟩
  else if command = RET_MEDIA_STATUS then
    if 4 ≤ data.length then
      .ok ⟨{ st with
              mediaPresent := data.take 2 == ['0', '1'],
              mediaType := mediaTypeMap ((data.drop 2).take 2) }, true, []⟩
    else .ok ⟨st, false, []⟩
  else if command = RET_CURRENT_TRACK_INFO then
    if 4 ≤ data.length then do
      let tens ← digitVal (data.getD 0 ' ')
      let ones ← digitVal (data.getD 1 ' ')
      let thousands ← digitVal (data.getD 2 ' ')
      let hundreds ← digitVal (data.getD 3 ' ')
      .ok ⟨{ st with currentTrack := thousands * 1000 + hundreds * 100 + tens * 10 + ones },
        true, []⟩
    else .ok ⟨st, false, []⟩
  else if command = RET_PLAY_MODE then
    if 2 ≤ data.length then
      .ok ⟨{ st with playMode := playModeMap (data.take 2) }, true, []⟩
    else .ok ⟨st, false, []⟩
  else if command = RET_TOTAL_TRACK_TIME then
    if 12 ≤ data.length then do
      let tens ← digitVal (data.getD 0 ' ')
      let ones ← digitVal (data.getD 1 ' ')
      let thousands ← digitVal (data.getD 2 ' ')
      let hundreds ← digitVal (data.getD 3 ' ')
      let st1 := { st with totalTracks := thousands * 1000 + hundreds * 100 + tens * 10 + ones }
      if (data.drop 4).take 6 ≠ ['0', '0', '0', '0', '0', '0'] then do
        let minTens ← digitVal (data.getD 4 ' ')
        let minOnes ← digitVal (data.getD 5 ' ')
        let minThousands ← digitVal (data.getD 6 ' ')
        let minHundreds ← digitVal (data.getD 7 ' ')
        let secTens ← digitVal (data.getD 8 ' ')
        let secOnes ← digitVal (data.getD 9 ' ')
        let minutes := minThousands * 1000 + minHundreds * 100 + minTens * 10 + minOnes
        let seconds := secTens * 10 + secOnes
        .ok ⟨{ st1 with totalTime := fmt02 minutes ++ ":" ++ fmt02 seconds }, true, []⟩
      else .ok ⟨st1, true, []⟩
    else .ok ⟨st, false, []⟩
  else if command = RET_VENDOR then
    if 2 ≤ data.length then
      if data.take 2 = ['0', '1'] then
        if 8 ≤ data.length then
          match deviceMap ((data.drop 6).take 2) with
          | some (deviceCode, name) =>
            .ok ⟨{ st with
                    device := deviceCode,
                    deviceName := name,
                    isTuner := deviceCode = "fm" ∨ deviceCode = "am" }, true, []⟩
          | none => .ok ⟨st, false, []⟩
        else .ok ⟨st, false, []⟩
      else .ok ⟨st, false, []⟩
    else .ok ⟨st, false, []⟩
  else if command = RET_RESUME_PLAY then
    if 2 ≤ data.length then
      .ok ⟨{ st with resumeMode := data.take 2 == ['0', '1'] }, true, []⟩
    else .ok ⟨st, false, []⟩
  else if command = RET_REPEAT then
    if 2 ≤ data.length then
      .ok ⟨{ st with repeatMode := data.take 2 == ['0', '1'] }, true, []⟩
    else .ok ⟨st, false, []⟩
  else if command = RET_INCR_PLAY then
    if 2 ≤ data.length then
      .ok ⟨{ st with incrementalPlay := data.take 2 == ['0', '1'] }, true, []⟩
    else .ok ⟨st, false, []⟩
  else if command = RET_REMOTE_LOCAL then
    if 2 ≤ data.length then
      .ok ⟨{ st with remoteLocalMode := remoteLocalMap (data.take 2) }, true, []⟩
    else .ok ⟨st, false, []⟩
  else if command = RET_ERROR_SENSE then
    if 2 ≤ data.length then do
      let b ← hexPair (data.getD 0 ' ') (data.getD 1 ' ')
      let errs := errorNamesOf b
      .ok ⟨{ st with errorStatus := some ⟨b, errs, !errs.isEmpty⟩ }, true, []⟩
    else .ok ⟨st, false, []⟩
  else if command = RET_CAUTION_SENSE then
    if 2 ≤ data.length then do
      let b ← hexPair (data.getD 0 ' ') (data.getD 1 ' ')
      let cs := cautionNamesOf b
      .ok ⟨{ st with cautionStatus := some ⟨b, cs, !cs.isEmpty⟩ }, true, []⟩
    else .ok ⟨st, false, []⟩
  else if command = RET_CHANGE_STATUS then
    .ok ⟨st, false, [(CMD_DEVICE_SELECT, ['F', 'F'])]⟩
  else if command = RET_ERROR_SENSE_REQUEST then
    .ok ⟨st, false, [(CMD_ERROR_SENSE, [])]⟩
  else if command = RET_CAUTION_SENSE_REQUEST then
    .ok ⟨st, false, [(CMD_CAUTION_SENSE, [])]⟩
  else if command = RET_ILLEGAL_STATUS then
    .ok ⟨st, false, []⟩
  else
    .ok ⟨st, false, []⟩

/-! ## Frame codec -/

/-- `_build_command`: LF + machine id + command + data + CR, encoded as
ASCII bytes (the vendor-prefix conditional in the source assigns the same
value on both arms, so it is a no-op). -/
def buildCommand (command : List Char) (data : List Char) : List Nat :=
  10 :: ((MACHINE_ID :: (command ++ data)).map Char.toNat ++ [13])

/-- Split the buffer at the first carriage return byte, as the index call
on the buffer and the two slices around it do; none when no CR is
present. -/
def splitAtCR : List Nat → Option (List Nat × List Nat)
  | [] => none
  | b :: bs =>
    if b = 13 then some ([], bs)
    else
      match splitAtCR bs with
      | none => none
      | some (pre, post) => some (b :: pre, post)

/-- bytes.decode("ascii", errors="ignore"): bytes below 128 become
characters, the rest are dropped. -/
def asciiDecode (bs : List Nat) : List Char :=
  bs.filterMap fun b => if b < 128 then some (Char.ofNat b) else none

/-- `_read_response` on a given pending buffer: at most one frame is
extracted per call.  Returns the parsed (command, data) frame, if any, and
the new buffer (everything after the first CR once one is present). -/
def readResponse (buffer : List Nat) : Option (List Char × List Char) × List Nat :=
  match splitAtCR buffer with
  | none => (none, buffer)
  | some (message, rest) =>
    if 3 ≤ message.length ∧ message.headD 0 = 10 then
      let msgStr := asciiDecode (message.drop 1)
      if 3 ≤ msgStr.length then
        (some ((msgStr.drop 1).take 2, msgStr.drop 3), rest)
      else (none, rest)
    else (none, rest)

/-- A well-formed inbound wire frame: LF, the frame body (machine id,
command code, payload) as ASCII bytes, CR. -/
def inboundFrame (body : List Char) : List Nat :=
  10 :: (body.map Char.toNat ++ [13])

/-! ## Command-issuing boundary methods

Each method returns the Device Status after the call and the list of
(command, data) pairs it put on the dispatch queue. -/

/-- The four wire digit characters for a track or preset number, in the
fixed order tens, ones, thousands, hundreds (`goto_track` and
`tuner_preset`). -/
def wireDigits (n : Nat) : List Char :=
  [Char.ofNat (48 + n / 10 % 10), Char.ofNat (48 + n % 10),
   Char.ofNat (48 + n / 1000 % 10), Char.ofNat (48 + n / 100 % 10)]

def play (st : DeviceStatus) : DeviceStatus × List (List Char × List Char) :=
  (st, [(CMD_PLAY, [])])

def stop (st : DeviceStatus) : DeviceStatus × List (List Char × List Char) :=
  (st, [(CMD_STOP, [])])

def eject (st : DeviceStatus) : DeviceStatus × List (List Char × List Char) :=
  (st, [(CMD_EJECT, [])])

def nextTrack (st : DeviceStatus) : DeviceStatus × List (List Char × List Char) :=
  (st, [(CMD_TRACK_SKIP, ['0', '0'])])

def previousTrack (st : DeviceStatus) : DeviceStatus × List (List Char × List Char) :=
  (st, [(CMD_TRACK_SKIP, ['0', '1'])])

def searchForward (highSpeed : Bool) (st : DeviceStatus) :
    DeviceStatus × List (List Char × List Char) :=
  (st, [(CMD_SEARCH, if highSpeed then ['1', '0'] else ['0', '0'])])

def searchReverse (highSpeed : Bool) (st : DeviceStatus) :
    DeviceStatus × List (List Char × List Char) :=
  (st, [(CMD_SEARCH, if highSpeed then ['1', '1'] else ['0', '1'])])

def gotoTrack (trackNumber : Nat) (st : DeviceStatus) :
    DeviceStatus × List (List Char × List Char) :=
  if 1 ≤ trackNumber ∧ trackNumber ≤ 999 then
    (st, [(CMD_DIRECT_TRACK_SEARCH, wireDigits trackNumber)])
  else (st, [])

/-- The mode_map of `set_play_mode`. -/
def playModeCode (mode : String) : Option (List Char) :=
  if mode = "continuous" then some ['0', '0']
  else if mode = "single" then some ['0', '1']
  else if mode = "random" then some ['0', '6']
  else none

def setPlayMode (mode : String) (st : DeviceStatus) :
    DeviceStatus × List (List Char × List Char) :=
  match playModeCode mode with
  | some code => ({ st with playMode := mode }, [(CMD_PLAY_MODE_SELECT, code)])
  | none => (st, [])

def setRepeat (enabled : Bool) (st : DeviceStatus) :
    DeviceStatus × List (List Char × List Char) :=
  ({ st with repeatMode := enabled },
   [(CMD_REPEAT_SELECT, if enabled then ['0', '1'] else ['0', '0'])])

def pause (st : DeviceStatus) : DeviceStatus × List (List Char × List Char) :=
  (st, [(CMD_READY, ['0', '1'])])

def resume (st : DeviceStatus) : DeviceStatus × List (List Char × List Char) :=
  (st, [(CMD_PLAY, [])])

def setResumeMode (enabled : Bool) (st : DeviceStatus) :
    DeviceStatus × List (List Char × List Char) :=
  ({ st with resumeMode := enabled },
   [(CMD_RESUME_PLAY_SELECT, if enabled then ['0', '1'] else ['0', '0'])])

def setIncrementalPlay (enabled : Bool) (st : DeviceStatus) :
    DeviceStatus × List (List Char × List Char) :=
  (st, [(CMD_INCR_PLAY_SELECT, if enabled then ['0', '1'] else ['0', '0'])])

def searchStart (forward : Bool) (highSpeed : Bool) (st : DeviceStatus) :
    DeviceStatus × List (List Char × List Char) :=
  (st, [(CMD_SEARCH,
    if forward then (if highSpeed then ['1', '0'] else ['0', '0'])
    else (if highSpeed then ['1', '1'] else ['0', '1']))])

def searchStop (st : DeviceStatus) : DeviceStatus × List (List Char × List Char) :=
  (st, [(CMD_PLAY, [])])

/-- The device_map of `switch_device` (device name, lower case, to wire
code). -/
def deviceSelectCode (device : String) : Option (List Char) :=
  if device = "sd" then some ['0', '0']
  else if device = "usb" then some ['1', '0']
  else if device = "cd" then some ['1', '1']
  else if device = "bluetooth" then some ['2', '0']
  else if device = "fm" then some ['3', '0']
  else if device = "am" then some ['3', '1']
  else if device = "aux" then some ['4', '0']
  else none

/-- The device_names table of `switch_device`, with the dictionary get
default device.upper(). -/
def deviceDisplayName (device : String) (original : String) : String :=
  if device = "sd" then "SD Card"
  else if device = "usb" then "USB"
  else if device = "cd" then "CD"
  else if device = "bluetooth" then "Bluetooth"
  else if device = "fm" then "FM Radio"
  else if device = "am" then "AM Radio"
  else if device = "aux" then "AUX Input"
  else original.toUpper

def switchDevice (device : String) (st : DeviceStatus) :
    DeviceStatus × List (List Char × List Char) :=
  let deviceLower := device.toLower
  match deviceSelectCode deviceLower with
  | some code =>
    ({ st with
        device := deviceLower,
        deviceName := deviceDisplayName deviceLower device,
        isTuner := deviceLower = "fm" ∨ deviceLower = "am" },
     [(CMD_DEVICE_SELECT, code)])
  | none => (st, [])

def tunerFrequencyUp (st : DeviceStatus) : DeviceStatus × List (List Char × List Char) :=
  (st, [(CMD_TRACK_SKIP, ['0', '0'])])

def tunerFrequencyDown (st : DeviceStatus) : DeviceStatus × List (List Char × List Char) :=
  (st, [(CMD_TRACK_SKIP, ['0', '1'])])

def tunerSeekUp (st : DeviceStatus) : DeviceStatus × List (List Char × List Char) :=
  (st, [(CMD_SEARCH, ['0', '0'])])

def tunerSeekDown (st : DeviceStatus) : DeviceStatus × List (List Char × List Char) :=
  (st, [(CMD_SEARCH, ['0', '1'])])

def tunerPreset (presetNumber : Nat) (st : DeviceStatus) :
    DeviceStatus × List (List Char × List Char) :=
  if 1 ≤ presetNumber ∧ presetNumber ≤ 20 then
    (st, [(CMD_DIRECT_TRACK_SEARCH, wireDigits presetNumber)])
  else (st, [])

def clear (st : DeviceStatus) : DeviceStatus × List (List Char × List Char) :=
  (st, [(CMD_CLEAR, [])])

def enter (st : DeviceStatus) : DeviceStatus × List (List Char × List Char) :=
  (st, [(CMD_ENTER, ['0', '1'])])

def back (st : DeviceStatus) : DeviceStatus × List (List Char × List Char) :=
  (st, [(CMD_BACK, ['0', '1'])])

def getTotalInfo (st : DeviceStatus) : DeviceStatus × List (List Char × List Char) :=
  (st, [(CMD_TOTAL_TRACK_TIME_SENSE, [])])

/-! ## Controller state, constructor and the poll/health loop -/

/-- The controller state relevant at this level: the attributes `__init__`
sets, with callback invocation modelled by a notification counter and the
local poll_count of `_poll_status` carried along.  Thread handles and the
queue lock are thread machinery and are not part of the state. -/
structure ControllerState where
  port : String
  baudrate : Nat
  serialOpen : Bool
  connected : Bool
  running : Bool
  consecutiveFailures : Nat
  lastReconnectAttempt : Nat
  status : DeviceStatus
  cmdQueue : List (List Char × List Char)
  responseBuffer : List Nat
  notifications : Nat
  pollCount : Nat
deriving DecidableEq, Repr

/-- Allowed baud rates per the TASCAM RS-232C spec (VALID_BAUDRATES). -/
def VALID_BAUDRATES : List Nat := [4800, 9600, 19200, 38400, 57600]

/-- Consecutive silent poll cycles before the automatic disconnect
(max_failures_before_disconnect). -/
def maxFailuresBeforeDisconnect : Nat := 10

/-- Seconds between reconnection attempts (reconnect_interval). -/
def reconnectInterval : Nat := 5

/-- `__init__(port, baudrate)`: the baudrate is validated against
VALID_BAUDRATES before anything else happens; on success every attribute
gets its documented default and no transport is opened, nothing queued. -/
def tascamInit (port : String) (baudrate : Nat) : Except String ControllerState :=
  if baudrate ∉ VALID_BAUDRATES then
    .error ("Invalid baudrate " ++ toString baudrate)
  else
    .ok
      { port := port
        baudrate := baudrate
        serialOpen := false
        connected := false
        running := false
        consecutiveFailures := 0
        lastReconnectAttempt := 0
        status := defaultStatus
        cmdQueue := []
        responseBuffer := []
        notifications := 0
        pollCount := 0 }

/-- `_reset_status`: put the defaults back and notify the listeners. -/
def resetStatus (s : ControllerState) : ControllerState :=
  { s with status := defaultStatus, notifications := s.notifications + 1 }

/-- `disconnect()` as invoked from a caller thread (the only invocation
that runs to completion): stop the loops, join both worker threads, close
the transport, clear the connected flag and the failure counter, then
reset the status (which notifies listeners).  When `disconnect()` is
instead invoked from inside the poll thread - the auto-disconnect path -
it never gets past the poll-thread join: join of the current thread
raises RuntimeError after only running=False has been assigned, so none
of the remaining lines execute there (see the threshold branches of
`pollCycle`). -/
def disconnect (s : ControllerState) : ControllerState :=
  resetStatus
    { s with running := false, serialOpen := false, connected := false,
             consecutiveFailures := 0 }

/-- The status queries `_poll_status` enqueues in one cycle: three every
cycle, five more every 10th cycle, four more every 30th cycle. -/
def pollCommands (count : Nat) : List (List Char × List Char) :=
  [(CMD_MECHA_STATUS_SENSE, []), (CMD_TRACK_NO_SENSE, []),
   (CMD_CURRENT_TRACK_TIME_SENSE, ['0', '0'])]
  ++ (if count % 10 = 0 then
        [(CMD_MEDIA_STATUS_SENSE, []), (CMD_CURRENT_TRACK_INFO_SENSE, []),
         (CMD_TOTAL_TRACK_TIME_SENSE, []), (CMD_PLAY_MODE_SENSE, []),
         (CMD_DEVICE_SELECT, ['F', 'F'])]
      else [])
  ++ (if count % 30 = 0 then
        [(CMD_RESUME_PLAY_SENSE, []), (CMD_REPEAT_SENSE, []),
         (CMD_INCR_PLAY_SENSE, []), (CMD_REMOTE_LOCAL_SENSE, [])]
      else [])

/-- One iteration of the while loop of `_poll_status`.
`now` is the current time in seconds, `incoming` the bytes waiting on the
serial line this cycle, `connectOk` whether a `connect()` attempted in the
reconnect branch would succeed.  When the running flag is down the loop
body never executes (the while condition fails), so the state is returned
unchanged.  A decode error (ValueError inside `_handle_response`) lands in
the except arm of the loop: the failure counter is incremented and the
cycle enqueues nothing.

The failure-threshold branches call `disconnect()` from inside the poll
thread, and that call does not complete: after running=False is assigned,
poll_thread.join - a join of the current thread - raises RuntimeError
before the serial close, the connected=False assignment and
`_reset_status` are reached.  In the silent branch the error is caught by
the except arm, which increments the counter once more and calls
`disconnect()` again; the second RuntimeError is raised inside the except
handler and ends the poll thread.  In the decode-error branch the
`disconnect()` call already sits inside the except handler, so its
RuntimeError ends the thread directly.  Either way only the running flag
and the counter change: the controller stays connected, the transport
stays open, status is not reset and no listener is notified. -/
def pollCycle (now : Nat) (incoming : List Nat) (connectOk : Bool)
    (s : ControllerState) : ControllerState :=
  if s.running then
    if s.connected then
      match readResponse (s.responseBuffer ++ incoming) with
      | (some (command, data), buf) =>
        match handleResponse command data s.status with
        | .ok r =>
          { s with
              responseBuffer := buf,
              status := r.status,
              notifications := s.notifications + (if r.updated then 1 else 0),
              consecutiveFailures := 0,
              cmdQueue := s.cmdQueue ++ r.sent ++ pollCommands s.pollCount,
              pollCount := s.pollCount + 1 }
        | .error _ =>
          let s1 := { s with
              responseBuffer := buf,
              consecutiveFailures := s.consecutiveFailures + 1 }
          if maxFailuresBeforeDisconnect ≤ s1.consecutiveFailures then
            { s1 with running := false }
          else s1
      | (none, buf) =>
        let s1 := { s with
            responseBuffer := buf,
            cmdQueue := s.cmdQueue ++ pollCommands s.pollCount,
            consecutiveFailures := s.consecutiveFailures + 1 }
        if maxFailuresBeforeDisconnect ≤ s1.consecutiveFailures then
          { s1 with running := false,
                    consecutiveFailures := s1.consecutiveFailures + 1 }
        else { s1 with pollCount := s1.pollCount + 1 }
    else
      if reconnectInterval ≤ now - s.lastReconnectAttempt then
        if connectOk then
          { s with
              lastReconnectAttempt := now,
              serialOpen := true,
              connected := true,
              running := true,
              consecutiveFailures := 0,
              cmdQueue := s.cmdQueue ++ [(CMD_REMOTE_LOCAL_SELECT, ['0', '1'])] }
        else { s with lastReconnectAttempt := now }
      else s
  else s

/-- A poll cycle in which the device stays silent: no bytes arrive. -/
def silentCycle : ControllerState → ControllerState :=
  pollCycle 0 [] false

/-- n iterations of a step function on the controller state. -/
def stepN (f : ControllerState → ControllerState) : Nat → ControllerState → ControllerState
  | 0, s => s
  | n + 1, s => stepN f n (f s)

/-- A controller freshly connected on the default port: the attribute state
right after a successful `connect()`. -/
def connState : ControllerState where
  port := "/dev/ttyUSB0"
  baudrate := 9600
  serialOpen := true
  connected := true
  running := true
  consecutiveFailures := 0
  lastReconnectAttempt := 0
  status := defaultStatus
  cmdQueue := [(CMD_REMOTE_LOCAL_SELECT, ['0', '1'])]
  responseBuffer := []
  notifications := 0
  pollCount := 0

/-- The response codes that carry an explicit minimum-length guard in
`_handle_response`, paired with the guard bound the source checks.  The
mecha status code D0 is deliberately absent: its branch has no guard. -/
def guardedMinLens : List (List Char × Nat) :=
  [(RET_TRACK_NO, 4), (RET_CURRENT_TRACK_TIME, 10), (RET_MEDIA_STATUS, 4),
   (RET_CURRENT_TRACK_INFO, 4), (RET_PLAY_MODE, 2), (RET_TOTAL_TRACK_TIME, 12),
   (RET_VENDOR, 2), (RET_RESUME_PLAY, 2), (RET_REPEAT, 2), (RET_INCR_PLAY, 2),
   (RET_REMOTE_LOCAL, 2), (RET_ERROR_SENSE, 2), (RET_CAUTION_SENSE, 2)]

/-! ## Codec lemmas -/

/-- Splitting at the first CR of a CR-free prefix followed by CR. -/
lemma splitAtCR_append (l r : List Nat) (h : 13 ∉ l) :
    splitAtCR (l ++ 13 :: r) = some (l, r) := by
  induction l with
  | nil => simp [splitAtCR]
  | cons a as ih =>
    simp only [List.mem_cons, not_or] at h
    have ha : ¬a = 13 := fun hh => h.1 hh.symm
    simp [splitAtCR, ha, ih h.2]

/-- The ignore-errors ASCII decode is a left inverse of byte encoding on
ASCII characters. -/
lemma asciiDecode_map (l : List Char) (h : ∀ c ∈ l, c.toNat < 128) :
    asciiDecode (l.map Char.toNat) = l := by
  induction l with
  | nil => rfl
  | cons a as ih =>
    have ha := h a (by simp)
    have tail : asciiDecode (as.map Char.toNat) = as :=
      ih fun c hc => h c (by simp [hc])
    simp only [List.map_cons, asciiDecode, List.filterMap_cons] at tail ⊢
    simp [ha, Char.ofNat_toNat, tail]

/-- `_read_response` on a buffer that starts with one well-formed frame:
the frame body parses as (id, code chars 1-2, data chars 3-) and exactly
the bytes after the first CR remain. -/
lemma readResponse_frame (body : List Char) (rest : List Nat)
    (hA : ∀ c ∈ body, c.toNat < 128) (hCR : ∀ c ∈ body, c.toNat ≠ 13)
    (hlen : 3 ≤ body.length) :
    readResponse (inboundFrame body ++ rest)
      = (some ((body.drop 1).take 2, body.drop 3), rest) := by
  have h13 : (13 : Nat) ∉ body.map Char.toNat := by
    simp only [List.mem_map, not_exists, not_and]
    intro c hc hcc
    exact hCR c hc hcc
  have hs : splitAtCR (inboundFrame body ++ rest)
      = some (10 :: body.map Char.toNat, rest) := by
    have heq : inboundFrame body ++ rest
        = (10 :: body.map Char.toNat) ++ 13 :: rest := by
      simp [inboundFrame]
    rw [heq]
    have h13c : (13 : Nat) ∉ 10 :: body.map Char.toNat := by
      simp only [List.mem_cons, not_or]
      exact ⟨by omega, h13⟩
    exact splitAtCR_append _ _ h13c
  have hdec := asciiDecode_map body hA
  simp only [readResponse, hs]
  have hl : 3 ≤ (10 :: body.map Char.toNat).length := by
    simp; omega
  rw [if_pos ⟨hl, rfl⟩]
  simp only [List.drop_one, List.tail_cons, hdec]
  rw [if_pos hlen]

/-! ## Poll loop lemmas -/

/-- Once the running flag is down the loop body never executes again. -/
lemma pollCycle_not_running (now : Nat) (incoming : List Nat) (connectOk : Bool)
    (s : ControllerState) (h : s.running = false) :
    pollCycle now incoming connectOk s = s := by
  simp [pollCycle, h]

/-- A silent, connected poll cycle below the failure threshold: the
queries are enqueued and only the failure counter and poll count move. -/
lemma silentCycle_step (s : ControllerState) (hr : s.running = true)
    (hc : s.connected = true) (hb : s.responseBuffer = [])
    (hlt : s.consecutiveFailures + 1 < maxFailuresBeforeDisconnect) :
    silentCycle s = { s with
      responseBuffer := [],
      cmdQueue := s.cmdQueue ++ pollCommands s.pollCount,
      consecutiveFailures := s.consecutiveFailures + 1,
      pollCount := s.pollCount + 1 } := by
  unfold silentCycle pollCycle
  rw [hr, hc, hb]
  have hread : readResponse ([] ++ []) = (none, []) := rfl
  rw [hread]
  simp only [if_true]
  rw [if_neg (by omega)]

/-- A silent, connected poll cycle that reaches the failure threshold:
the aborted in-thread `disconnect()` clears only the running flag, the
except arm adds a second counter increment, and everything else -
connected flag, open transport, status, notifications, reconnect
timestamp - stays exactly as it was. -/
lemma silentCycle_threshold (s : ControllerState) (hr : s.running = true)
    (hc : s.connected = true) (hb : s.responseBuffer = [])
    (hge : maxFailuresBeforeDisconnect ≤ s.consecutiveFailures + 1) :
    silentCycle s = { s with
      running := false,
      consecutiveFailures := s.consecutiveFailures + 2,
      cmdQueue := s.cmdQueue ++ pollCommands s.pollCount,
      responseBuffer := [] } := by
  unfold silentCycle pollCycle
  rw [hr, hc, hb]
  have hread : readResponse ([] ++ []) = (none, []) := rfl
  rw [hread]
  simp only [if_true]
  rw [if_pos (by omega)]

lemma stepN_back (f : ControllerState → ControllerState) (n : Nat) :
    ∀ s, stepN f (n + 1) s = f (stepN f n s) := by
  induction n with
  | zero => intro s; rfl
  | succ n ih => intro s; exact ih (f s)

lemma stepN_fix (f : ControllerState → ControllerState) (s : ControllerState)
    (h : f s = s) : ∀ n, stepN f n s = s := by
  intro n
  induction n with
  | zero => rfl
  | succ n ih => show stepN f n (f s) = s; rw [h]; exact ih

/-- k silent cycles (k at most 9) keep the controller connected, leave
status, notifications and reconnect timestamp alone, and advance the
failure counter by exactly k. -/
lemma stepN_silent_fields (k : Nat) :
    ∀ s : ControllerState, s.running = true → s.connected = true →
      s.responseBuffer = [] → s.consecutiveFailures + k ≤ 9 →
      (stepN silentCycle k s).running = true ∧
      (stepN silentCycle k s).connected = true ∧
      (stepN silentCycle k s).responseBuffer = [] ∧
      (stepN silentCycle k s).consecutiveFailures = s.consecutiveFailures + k ∧
      (stepN silentCycle k s).status = s.status ∧
      (stepN silentCycle k s).notifications = s.notifications ∧
      (stepN silentCycle k s).lastReconnectAttempt = s.lastReconnectAttempt := by
  induction k with
  | zero =>
    intro s h1 h2 h3 _
    exact ⟨h1, h2, h3, rfl, rfl, rfl, rfl⟩
  | succ k ih =>
    intro s h1 h2 h3 hk
    have hstep := silentCycle_step s h1 h2 h3
      (by unfold maxFailuresBeforeDisconnect; omega)
    have hrw : stepN silentCycle (k + 1) s = stepN silentCycle k (silentCycle s) := rfl
    rw [hrw, hstep]
    have hres := ih { s with
        responseBuffer := [],
        cmdQueue := s.cmdQueue ++ pollCommands s.pollCount,
        consecutiveFailures := s.consecutiveFailures + 1,
        pollCount := s.pollCount + 1 } h1 h2 rfl (by simp; omega)
    obtain ⟨r1, r2, r3, r4, r5, r6, r7⟩ := hres
    refine ⟨r1, r2, r3, ?_, r5, r6, r7⟩
    rw [r4]
    simp
    omega

/-! ## Claims -/

/-- Claim C1, counterexample: the mecha status branch (code D0) has no
minimum-length guard, so the empty payload - shorter than the two
characters one status byte needs - is not ignored: it overwrites the
mechanism state from play to unknown and sets the updated flag, firing a
listener notification. -/
theorem C1_mecha_short_payload_mutates :
    (handleResponse RET_MECHA_STATUS []
        { defaultStatus with mechaStatus := "play" }).toOption.map
        (fun r => (r.status.mechaStatus, r.updated)) = some ("unknown", true) ∧
    "unknown" ≠ "play" := by decide

/-- Claim C1, amended: for every response code that carries a length guard
in `_handle_response` (all handled codes except mecha status D0), a
payload shorter than the guard bound leaves Device Status unchanged,
fires no notification, enqueues nothing, and raises no exception. -/
theorem C1_short_payload_guarded_noop (command : List Char) (n : Nat)
    (data : List Char) (st : DeviceStatus)
    (hmem : (command, n) ∈ guardedMinLens) (hlen : data.length < n) :
    handleResponse command data st = .ok ⟨st, false, []⟩ := by
  fin_cases hmem <;>
    simp [handleResponse, Nat.not_le.mpr hlen, RET_MECHA_STATUS, RET_TRACK_NO,
      RET_CURRENT_TRACK_TIME, RET_MEDIA_STATUS, RET_CURRENT_TRACK_INFO,
      RET_PLAY_MODE, RET_TOTAL_TRACK_TIME, RET_VENDOR, RET_RESUME_PLAY,
      RET_REPEAT, RET_INCR_PLAY, RET_REMOTE_LOCAL, RET_ERROR_SENSE,
      RET_CAUTION_SENSE, RET_CHANGE_STATUS, RET_ERROR_SENSE_REQUEST,
      RET_CAUTION_SENSE_REQUEST, RET_ILLEGAL_STATUS]

/-- Witness for C1 at a concrete input: a one-character payload on the
track number code D5 is a complete no-op. -/
theorem C1_short_payload_guarded_noop_witness :
    handleResponse RET_TRACK_NO ['1'] defaultStatus = .ok ⟨defaultStatus, false, []⟩ :=
  C1_short_payload_guarded_noop RET_TRACK_NO 4 ['1'] defaultStatus (by decide) (by decide)

/-- Claim C2, counterexample: `set_repeat` - a command-issuing method of
the public boundary - writes the repeat flag of Device Status. -/
theorem C2_set_repeat_writes_device_status :
    (setRepeat true defaultStatus).1 ≠ defaultStatus := by decide

/-- Claim C2, amended: of the command-issuing boundary methods exactly
four write Device Status - `set_play_mode` (play mode, on a valid mode),
`set_repeat` (repeat flag), `set_resume_mode` (resume flag) and
`switch_device` (device, display name and tuner flag, on a valid device) -
and each touches only those fields; every other command method leaves the
record untouched, so apart from these optimistic writes the record is
mutated only by the decoder and the disconnect reset. -/
theorem C2_command_methods_device_status_writes (st : DeviceStatus)
    (b c : Bool) (n : Nat) (mode device : String) :
    (play st).1 = st ∧ (stop st).1 = st ∧ (eject st).1 = st ∧
    (nextTrack st).1 = st ∧ (previousTrack st).1 = st ∧
    (searchForward b st).1 = st ∧ (searchReverse b st).1 = st ∧
    (gotoTrack n st).1 = st ∧
    { (setPlayMode mode st).1 with playMode := st.playMode } = st ∧
    { (setRepeat b st).1 with repeatMode := st.repeatMode } = st ∧
    (setRepeat b st).1.repeatMode = b ∧
    (pause st).1 = st ∧ (resume st).1 = st ∧
    { (setResumeMode b st).1 with resumeMode := st.resumeMode } = st ∧
    (setResumeMode b st).1.resumeMode = b ∧
    (setIncrementalPlay b st).1 = st ∧
    (searchStart b c st).1 = st ∧ (searchStop st).1 = st ∧
    { (switchDevice device st).1 with
        device := st.device, deviceName := st.deviceName, isTuner := st.isTuner } = st ∧
    (tunerFrequencyUp st).1 = st ∧ (tunerFrequencyDown st).1 = st ∧
    (tunerSeekUp st).1 = st ∧ (tunerSeekDown st).1 = st ∧
    (tunerPreset n st).1 = st ∧
    (clear st).1 = st ∧ (enter st).1 = st ∧ (back st).1 = st ∧
    (getTotalInfo st).1 = st := by
  obtain ⟨⟩ := st
  refine ⟨rfl, rfl, rfl, rfl, rfl, rfl, rfl, ?_, ?_, rfl, rfl, rfl, rfl, rfl, rfl,
    rfl, rfl, rfl, ?_, rfl, rfl, rfl, rfl, ?_, rfl, rfl, rfl, rfl⟩
  · unfold gotoTrack; split <;> rfl
  · rcases hpm : playModeCode mode with _ | code <;> simp [setPlayMode, hpm]
  · rcases hdc : deviceSelectCode device.toLower with _ | code <;>
      simp [switchDevice, hdc]
  · unfold tunerPreset; split <;> rfl

/-- Claim C3, counterexample: the digit string 1230, read in wire order
tens=1, ones=2, thousands=3, hundreds=0, decodes to track
3 * 1000 + 0 * 100 + 1 * 10 + 2 = 3012, not 31. -/
theorem C3_track_1230_decodes_to_3012 :
    (handleResponse RET_TRACK_NO ['1', '2', '3', '0'] defaultStatus).toOption.map
        (fun r => r.status.trackNumber) = some 3012 ∧ (3012 : Nat) ≠ 31 := by decide

/-- Claim C3, amended: track-number decode of a 4-digit payload reads the
digits in the fixed non-normalized order tens, ones, thousands, hundreds,
so the digit string 1230 yields track 3012 and 0000 yields track 0. -/
theorem C3_track_number_digit_order (st : DeviceStatus) :
    handleResponse RET_TRACK_NO ['1', '2', '3', '0'] st
      = .ok ⟨{ st with trackNumber := 3012 }, true, []⟩ ∧
    handleResponse RET_TRACK_NO ['0', '0', '0', '0'] st
      = .ok ⟨{ st with trackNumber := 0 }, true, []⟩ := ⟨rfl, rfl⟩

/-- Claim C4, counterexample: the vendor command code 7F01 is a valid
command code (`CMD_DEVICE_SELECT`, used by `switch_device` and the poll
loop), but the frame extractor always takes exactly two characters as the
code, so encode-then-extract returns (7F, 0111) instead of the original
(7F01, 11) pair. -/
theorem C4_vendor_code_roundtrip_fails :
    readResponse (buildCommand CMD_DEVICE_SELECT ['1', '1'])
      = (some (['7', 'F'], ['0', '1', '1', '1']), []) ∧
    readResponse (buildCommand CMD_DEVICE_SELECT ['1', '1'])
      ≠ (some (CMD_DEVICE_SELECT, ['1', '1']), []) := by decide

/-- Claim C4, amended: for every two-character command code and every
payload of ASCII characters none of which is the CR terminator, building
the command frame and then extracting from exactly those bytes recovers
the original (code, payload) pair; vendor codes of four or six characters
are split after two characters instead, as the counterexample shows. -/
theorem C4_two_char_roundtrip (c1 c2 : Char) (data : List Char)
    (h1 : c1.toNat < 128) (h2 : c1.toNat ≠ 13)
    (h3 : c2.toNat < 128) (h4 : c2.toNat ≠ 13)
    (h5 : ∀ c ∈ data, c.toNat < 128) (h6 : ∀ c ∈ data, c.toNat ≠ 13) :
    readResponse (buildCommand [c1, c2] data) = (some ([c1, c2], data), []) := by
  have key := readResponse_frame (MACHINE_ID :: ([c1, c2] ++ data)) []
    (by
      intro c hc
      simp only [List.mem_cons, List.cons_append, List.mem_append] at hc
      rcases hc with rfl | hc
      · decide
      · rcases hc with rfl | rfl | hc
        · exact h1
        · exact h3
        · exact h5 c (by simpa using hc))
    (by
      intro c hc
      simp only [List.mem_cons, List.cons_append, List.mem_append] at hc
      rcases hc with rfl | hc
      · decide
      · rcases hc with rfl | rfl | hc
        · exact h2
        · exact h4
        · exact h6 c (by simpa using hc))
    (by simp)
  have eqb : buildCommand [c1, c2] data
      = inboundFrame (MACHINE_ID :: ([c1, c2] ++ data)) ++ [] := by
    simp [buildCommand, inboundFrame]
  rw [eqb, key]
  simp

/-- Witness for C4 at a concrete input: the mecha status query code 50
with payload 01 round-trips. -/
theorem C4_two_char_roundtrip_witness :
    readResponse (buildCommand ['5', '0'] ['0', '1']) = (some (['5', '0'], ['0', '1']), []) :=
  C4_two_char_roundtrip '5' '0' ['0', '1'] (by decide) (by decide) (by decide) (by decide)
    (by decide) (by decide)

/-- Claim C5 (a code bug): the auto-disconnect on the tenth silent poll
cycle does not complete.  `disconnect()`, called from inside the poll
thread, clears the running flag and then raises RuntimeError at
poll_thread.join (a join of the current thread), before connected=False,
the serial close and `_reset_status` are reached; the except arm adds one
more counter increment and its retry of `disconnect()` raises again,
ending the poll thread.  So after ten silent cycles the loop is dead but
the controller still reports connected, Device Status keeps whatever it
held (no reset to defaults), no listener is notified, and the counter
reads 11; further cycles change nothing.  The claim's other half is true
of the code and proved here too: a cycle that decodes one valid frame
resets the consecutive-failure counter to zero whatever it was. -/
theorem C5_tenth_silent_cycle_aborts_mid_disconnect (s s2 : ControllerState)
    (n : Nat) (inc : List Nat) (command data : List Char) (buf : List Nat)
    (r : HandleResult)
    (hr : s.running = true) (hc : s.connected = true)
    (hf : s.consecutiveFailures = 0) (hb : s.responseBuffer = [])
    (hr2 : s2.running = true) (hc2 : s2.connected = true)
    (hread : readResponse (s2.responseBuffer ++ inc) = (some (command, data), buf))
    (hok : handleResponse command data s2.status = .ok r) :
    (stepN silentCycle 10 s).running = false ∧
    (stepN silentCycle 10 s).connected = true ∧
    (stepN silentCycle 10 s).status = s.status ∧
    (stepN silentCycle 10 s).notifications = s.notifications ∧
    (stepN silentCycle 10 s).consecutiveFailures = 11 ∧
    stepN silentCycle n (stepN silentCycle 10 s) = stepN silentCycle 10 s ∧
    (pollCycle 0 inc false s2).consecutiveFailures = 0 := by
  have h9 := stepN_silent_fields 9 s hr hc hb (by omega)
  have h10 : stepN silentCycle 10 s = silentCycle (stepN silentCycle 9 s) :=
    stepN_back silentCycle 9 s
  have hth := silentCycle_threshold (stepN silentCycle 9 s) h9.1 h9.2.1 h9.2.2.1
    (by rw [h9.2.2.2.1]; unfold maxFailuresBeforeDisconnect; omega)
  rw [h10, hth]
  refine ⟨rfl, h9.2.1, h9.2.2.2.2.1, h9.2.2.2.2.2.1, ?_, ?_, ?_⟩
  · show (stepN silentCycle 9 s).consecutiveFailures + 2 = 11
    rw [h9.2.2.2.1, hf]
  · exact stepN_fix _ _ (pollCycle_not_running _ _ _ _ rfl) n
  · unfold pollCycle
    rw [hr2, hc2, hread]
    simp [hok]

/-- Witness for C5 at a concrete input: the freshly connected controller
after ten silent cycles is no longer running yet still marked connected,
with the default status it started from, zero notifications and counter
11; three further cycles change nothing; and one cycle that receives a
well-formed mecha status frame on a connected state with seven
accumulated failures drops the counter back to zero. -/
theorem C5_tenth_silent_cycle_aborts_mid_disconnect_witness :
    (stepN silentCycle 10 connState).running = false ∧
    (stepN silentCycle 10 connState).connected = true ∧
    (stepN silentCycle 10 connState).status = connState.status ∧
    (stepN silentCycle 10 connState).notifications = connState.notifications ∧
    (stepN silentCycle 10 connState).consecutiveFailures = 11 ∧
    stepN silentCycle 3 (stepN silentCycle 10 connState) = stepN silentCycle 10 connState ∧
    (pollCycle 0 (inboundFrame ['0', 'D', '0', '1', '1']) false
        { connState with consecutiveFailures := 7 }).consecutiveFailures = 0 :=
  C5_tenth_silent_cycle_aborts_mid_disconnect connState
    { connState with consecutiveFailures := 7 } 3 (inboundFrame ['0', 'D', '0', '1', '1'])
    ['D', '0'] ['1', '1'] [] ⟨{ defaultStatus with mechaStatus := "play" }, true, []⟩
    rfl rfl rfl rfl rfl rfl rfl rfl

/-- Claim C6 (a code bug): the tenth silent cycle clears the running flag
(the one assignment the aborted in-thread `disconnect()` does make) and
the RuntimeError from the current-thread join kills the poll thread, so
the loop whose top carries the 5-second reconnect branch never runs
again: every later cycle - at any clock time, with any bytes waiting,
even when a reconnect would succeed - is the identity, the running flag
stays down and the reconnect timestamp never moves.  The advertised
reconnect supervision is dead code after an automatic disconnect. -/
theorem C6_no_reconnect_after_auto_disconnect (s : ControllerState)
    (now : Nat) (inc : List Nat) (connectOk : Bool) (n : Nat)
    (hr : s.running = true) (hc : s.connected = true)
    (hf : s.consecutiveFailures = 0) (hb : s.responseBuffer = []) :
    (stepN silentCycle 10 s).running = false ∧
    pollCycle now inc connectOk (stepN silentCycle 10 s) = stepN silentCycle 10 s ∧
    (stepN (pollCycle now inc connectOk) n (stepN silentCycle 10 s)).running = false ∧
    (stepN (pollCycle now inc connectOk) n
        (stepN silentCycle 10 s)).lastReconnectAttempt = s.lastReconnectAttempt := by
  have h9 := stepN_silent_fields 9 s hr hc hb (by omega)
  have h10 : stepN silentCycle 10 s = silentCycle (stepN silentCycle 9 s) :=
    stepN_back silentCycle 9 s
  have hth := silentCycle_threshold (stepN silentCycle 9 s) h9.1 h9.2.1 h9.2.2.1
    (by rw [h9.2.2.2.1]; unfold maxFailuresBeforeDisconnect; omega)
  rw [h10, hth]
  have hdead := pollCycle_not_running now inc connectOk _ (rfl :
    ({ stepN silentCycle 9 s with
        running := false,
        consecutiveFailures := (stepN silentCycle 9 s).consecutiveFailures + 2,
        cmdQueue := (stepN silentCycle 9 s).cmdQueue
          ++ pollCommands (stepN silentCycle 9 s).pollCount,
        responseBuffer := [] } : ControllerState).running = false)
  have hfixn := stepN_fix _ _ hdead n
  refine ⟨rfl, hdead, ?_, ?_⟩
  · rw [hfixn]
  · rw [hfixn]
    simpa using h9.2.2.2.2.2.2

/-- Witness for C6 at a concrete input: after the freshly connected
controller silently times out, a cycle at clock time 100 (far beyond the
5-second reconnect interval) with a reconnect that would succeed still
does nothing, and four such cycles leave the loop dead with the reconnect
timestamp untouched. -/
theorem C6_no_reconnect_after_auto_disconnect_witness :
    (stepN silentCycle 10 connState).running = false ∧
    pollCycle 100 [] true (stepN silentCycle 10 connState) = stepN silentCycle 10 connState ∧
    (stepN (pollCycle 100 [] true) 4 (stepN silentCycle 10 connState)).running = false ∧
    (stepN (pollCycle 100 [] true) 4
        (stepN silentCycle 10 connState)).lastReconnectAttempt
      = connState.lastReconnectAttempt :=
  C6_no_reconnect_after_auto_disconnect connState 100 [] true 4 rfl rfl rfl rfl

/-- Claim C7: with two consecutive complete frames in the buffer, the
first extraction call returns exactly the first frame and leaves the
second intact as the remainder, and the second call returns the second
frame: one frame per invocation, nothing merged, nothing dropped. -/
theorem C7_consecutive_frames_one_per_call (b1 b2 : List Char)
    (hA1 : ∀ c ∈ b1, c.toNat < 128) (hC1 : ∀ c ∈ b1, c.toNat ≠ 13)
    (hl1 : 3 ≤ b1.length)
    (hA2 : ∀ c ∈ b2, c.toNat < 128) (hC2 : ∀ c ∈ b2, c.toNat ≠ 13)
    (hl2 : 3 ≤ b2.length) :
    readResponse (inboundFrame b1 ++ inboundFrame b2)
      = (some ((b1.drop 1).take 2, b1.drop 3), inboundFrame b2) ∧
    readResponse (inboundFrame b2)
      = (some ((b2.drop 1).take 2, b2.drop 3), []) := by
  constructor
  · exact readResponse_frame b1 (inboundFrame b2) hA1 hC1 hl1
  · simpa using readResponse_frame b2 [] hA2 hC2 hl2

/-- Witness for C7 at a concrete input: a mecha status frame followed by a
repeat mode frame come out one per call in order. -/
theorem C7_consecutive_frames_one_per_call_witness :
    readResponse (inboundFrame ['0', 'D', '0', '1', '1'] ++ inboundFrame ['0', 'B', '8', '0', '1'])
      = (some (['D', '0'], ['1', '1']), inboundFrame ['0', 'B', '8', '0', '1']) ∧
    readResponse (inboundFrame ['0', 'B', '8', '0', '1'])
      = (some (['B', '8'], ['0', '1']), []) :=
  C7_consecutive_frames_one_per_call ['0', 'D', '0', '1', '1'] ['0', 'B', '8', '0', '1']
    (by decide) (by decide) (by decide) (by decide) (by decide) (by decide)

/-- Claim C8: on a track-time payload of at least 10 characters whose
positions 2-7 are decimal digits, the decoder rebuilds the minutes from
the 4 digits in the fixed wire order (tens, ones, thousands, hundreds) and
the seconds from 2 digits, and formats them as colon-separated fields
zero-padded to two digits; the format pads but never truncates, so any
minute value of two or more digits - 105 included - prints in full. -/
theorem C8_track_time_decode_format (c0 c1 c2 c3 c4 c5 c6 c7 : Char)
    (rest : List Char) (st : DeviceStatus) (d2 d3 d4 d5 d6 d7 m : Nat)
    (h2 : digitVal c2 = .ok d2) (h3 : digitVal c3 = .ok d3)
    (h4 : digitVal c4 = .ok d4) (h5 : digitVal c5 = .ok d5)
    (h6 : digitVal c6 = .ok d6) (h7 : digitVal c7 = .ok d7)
    (hrest : 2 ≤ rest.length) (hm : 10 ≤ m) :
    handleResponse RET_CURRENT_TRACK_TIME
        (c0 :: c1 :: c2 :: c3 :: c4 :: c5 :: c6 :: c7 :: rest) st
      = .ok ⟨{ st with
          timeElapsed := fmt02 (d4 * 1000 + d5 * 100 + d2 * 10 + d3) ++ ":" ++
            fmt02 (d6 * 10 + d7) }, true, []⟩ ∧
    fmt02 m = toString m := by
  constructor
  · have hlen : 10 ≤ (c0 :: c1 :: c2 :: c3 :: c4 :: c5 :: c6 :: c7 :: rest).length := by
      simp; omega
    simp [handleResponse, RET_CURRENT_TRACK_TIME, RET_MECHA_STATUS, RET_TRACK_NO,
      hlen, h2, h3, h4, h5, h6, h7, hrest, Except.bind, Bind.bind]
  · unfold fmt02
    rw [if_neg (by omega)]

/-- Witness for C8 at a concrete input: the payload 0005013000 decodes to
105 minutes 30 seconds and prints as 105:30, the three-digit minutes
unpadded and untruncated. -/
theorem C8_track_time_decode_format_witness :
    handleResponse RET_CURRENT_TRACK_TIME
        ['0', '0', '0', '5', '0', '1', '3', '0', '0', '0'] defaultStatus
      = .ok ⟨{ defaultStatus with timeElapsed := "105:30" }, true, []⟩ ∧
    fmt02 105 = "105" :=
  C8_track_time_decode_format '0' '0' '0' '5' '0' '1' '3' '0' ['0', '0'] defaultStatus
    0 5 0 1 3 0 105 rfl rfl rfl rfl rfl rfl (by decide) (by decide)

/-- Claim C9: the constructor accepts a speed exactly when it is one of
the five permitted baud rates, rejecting anything else synchronously as a
configuration error; a successfully constructed controller has not opened
the transport, is not connected, is not running and has an empty command
queue. -/
theorem C9_baudrate_validated_at_construction (port : String) (baudrate : Nat) :
    ((∃ s, tascamInit port baudrate = .ok s) ↔ baudrate ∈ VALID_BAUDRATES) ∧
    (baudrate ∉ VALID_BAUDRATES →
      tascamInit port baudrate = .error ("Invalid baudrate " ++ toString baudrate)) ∧
    (∀ s, tascamInit port baudrate = .ok s →
      s.serialOpen = false ∧ s.connected = false ∧ s.running = false ∧
      s.cmdQueue = [] ∧ s.status = defaultStatus) := by
  unfold tascamInit
  by_cases h : baudrate ∈ VALID_BAUDRATES
  · refine ⟨by simp [h], by simp [h], ?_⟩
    intro s hs
    simp only [h, not_true_eq_false, if_false, ite_false, Except.ok.injEq] at hs
    exact hs ▸ ⟨rfl, rfl, rfl, rfl, rfl⟩
  · simp [h]

/-- Claim C10: the frame extractor reads the device-id character but never
compares it to anything: for every well-formed inbound frame the parse
result is exactly the code and payload after the id position, independent
of which character sits there (the fixed MACHINE_ID 0 included or not). -/
theorem C10_device_id_not_checked (mid : Char) (rest : List Char)
    (hid1 : mid.toNat < 128) (hid2 : mid.toNat ≠ 13)
    (hA : ∀ c ∈ rest, c.toNat < 128) (hC : ∀ c ∈ rest, c.toNat ≠ 13)
    (hlen : 2 ≤ rest.length) :
    readResponse (inboundFrame (mid :: rest)) = (some (rest.take 2, rest.drop 2), []) := by
  have key := readResponse_frame (mid :: rest) []
    (by
      intro c hc
      rcases List.mem_cons.mp hc with rfl | hc
      · exact hid1
      · exact hA c hc)
    (by
      intro c hc
      rcases List.mem_cons.mp hc with rfl | hc
      · exact hid2
      · exact hC c hc)
    (by simp; omega)
  simpa using key

/-- Witness for C10 at a concrete input: a frame whose id position holds
Z - not the controller MACHINE_ID 0 - is still accepted and parsed. -/
theorem C10_device_id_not_checked_witness :
    readResponse (inboundFrame ['Z', 'D', '0', '1', '1'])
      = (some (['D', '0'], ['1', '1']), []) :=
  C10_device_id_not_checked 'Z' ['D', '0', '1', '1'] (by decide) (by decide)
    (by decide) (by decide) (by decide)

end Tascam
